import Mathlib

/-!
Shallow embedding of the chess-clock sketch (`src/chess_clock.ino`).

The sketch keeps all state in free-standing globals plus three `static`
locals of `loop()`; we gather them into a `ClockState` record.  One
iteration of `loop()` becomes the function `step`, which consumes an
`Input` (the three active-low button lines, rendered as plain Booleans
with `true` = pressed, and the current `millis()` value) and produces the
next state together with a list of observable output `Event`s (beeps and
the game-end announcement).  The blocking wait inside `gameOver()` is
unrolled into an explicit `isGameOver` mode: while it holds, a step with
the control button released does nothing, and a control press performs
the restart (`isSetup := true; resetTimes()`), exactly the effect the
blocking loop has when it exits.

`unsigned long` is 32 bits on the target; all timestamps and remaining
times are `Nat`, and the one place C unsigned wraparound matters —
subtraction — is modelled explicitly by `wsub`.
-/

/-- 2^32, the modulus of the target's `unsigned long`. -/
def W32 : Nat := 4294967296

/-- C unsigned-long subtraction `a - b` (wraparound modulo 2^32). -/
def wsub (a b : Nat) : Nat := (a % W32 + W32 - b % W32) % W32

/-- The two players. -/
inductive Player where
  | White : Player
  | Black : Player
deriving DecidableEq, Repr

/-- Observable output events of one loop iteration: the warning beeps
(annotated with the player whose clock triggered them), the
final-five-seconds beep (annotated with the active player's remaining
milliseconds at the moment it fires), and the game-end announcement with
the displayed winner. -/
inductive Event where
  | warningOneMinute : Player → Event
  | warningThirtySeconds : Player → Event
  | finalCountdownBeep : Nat → Event
  | gameEnded : Player → Event
deriving DecidableEq, Repr

/-- One loop iteration's inputs: the three buttons (true = pressed, i.e.
the line reads LOW) and the value of `millis()` during this iteration. -/
structure Input where
  bButton : Bool
  wButton : Bool
  controlButton : Bool
  now : Nat
deriving DecidableEq, Repr

/-- All mutable state of the sketch: the globals `currentTimeOption`,
`blackTime`, `whiteTime`, `lastUpdateTime`, `isWhiteTurn`, `isRunning`,
`isSetup`, the `static` locals of `loop()` (`hasOneMinuteWarning`,
`hasThirtySecondWarning`, `lastFinalSecondBeep`), and the explicit
`isGameOver` flag standing for being inside `gameOver()`'s blocking
wait-for-restart loop. -/
structure ClockState where
  currentTimeOption : Nat
  blackTime : Nat
  whiteTime : Nat
  lastUpdateTime : Nat
  isWhiteTurn : Bool
  isRunning : Bool
  isSetup : Bool
  isGameOver : Bool
  hasOneMinuteWarning : Bool
  hasThirtySecondWarning : Bool
  lastFinalSecondBeep : Nat
deriving DecidableEq, Repr

/-- `TIME_OPTIONS[] = {120, 600, 1800, 3600}` (seconds). -/
def TIME_OPTIONS : List Nat := [120, 600, 1800, 3600]

/-- `NUM_OPTIONS = 4`. -/
def NUM_OPTIONS : Nat := 4

/-- `resetTimes()`: both clocks set to the selected option in
milliseconds, `lastUpdateTime = millis()`. -/
def resetTimes (now : Nat) (s : ClockState) : ClockState :=
  { s with
    blackTime := TIME_OPTIONS.getD s.currentTimeOption 0 * 1000
    whiteTime := TIME_OPTIONS.getD s.currentTimeOption 0 * 1000
    lastUpdateTime := now }

/-- `handleSetup()`: B button cycles the time option forward, W button
backward (both with wraparound); a control press confirms — it leaves
setup and calls `resetTimes()`. -/
def handleSetup (inp : Input) (s : ClockState) : ClockState :=
  let s1 := if inp.bButton then
    { s with currentTimeOption := (s.currentTimeOption + 1) % NUM_OPTIONS }
  else s
  let s2 := if inp.wButton then
    { s1 with currentTimeOption := (s1.currentTimeOption + NUM_OPTIONS - 1) % NUM_OPTIONS }
  else s1
  if inp.controlButton then resetTimes inp.now { s2 with isSetup := false }
  else s2

/-- The control-press handling at the top of `handleGame()`: toggle
`isRunning` and set `lastUpdateTime = millis()`. -/
def controlToggle (inp : Input) (s : ClockState) : ClockState :=
  if inp.controlButton then
    { s with isRunning := !s.isRunning, lastUpdateTime := inp.now }
  else s

/-- The time-debit block of `handleGame()` (lines 167–178): compute
`elapsed = currentTime - lastUpdateTime` with unsigned arithmetic, debit
the active player's clock with the clamp
`time = (elapsed >= time) ? 0 : time - elapsed`, and set
`lastUpdateTime = currentTime`. -/
def advance (now : Nat) (s : ClockState) : ClockState :=
  let elapsed := wsub now s.lastUpdateTime
  let s1 :=
    if s.isWhiteTurn then
      { s with whiteTime := if s.whiteTime ≤ elapsed then 0 else s.whiteTime - elapsed }
    else
      { s with blackTime := if s.blackTime ≤ elapsed then 0 else s.blackTime - elapsed }
  { s1 with lastUpdateTime := now }

/-- The player-switch block of `handleGame()` (lines 181–187): while
White is the active player, a press of the White button hands the turn to
Black; otherwise (Black active) a press of the Black button hands the
turn to White. -/
def switchTurn (inp : Input) (s : ClockState) : ClockState :=
  if s.isWhiteTurn && inp.wButton then { s with isWhiteTurn := false }
  else if !s.isWhiteTurn && inp.bButton then { s with isWhiteTurn := true }
  else s

/-- The winner decision of `gameOver()` (lines 255–259): `whiteTime` is
tested first, so White at zero means Black wins, anything else means
White wins. -/
def winnerOf (whiteTime blackTime : Nat) : Player :=
  if whiteTime = 0 then Player.Black else Player.White

/-- `handleGame()`: control toggle, then (when running) time debit and
player switch, then the end-of-game check `whiteTime == 0 || blackTime == 0`.
Entering `gameOver()` stops the clock (`isRunning = false`), announces
the winner, and leaves the machine in the blocking wait modelled by
`isGameOver := true`. -/
def handleGame (inp : Input) (s : ClockState) : ClockState × List Event :=
  let s1 := controlToggle inp s
  let s2 := if s1.isRunning then switchTurn inp (advance inp.now s1) else s1
  if s2.whiteTime = 0 ∨ s2.blackTime = 0 then
    ({ s2 with isRunning := false, isGameOver := true },
      [Event.gameEnded (winnerOf s2.whiteTime s2.blackTime)])
  else (s2, [])

/-- The tail of `gameOver()`: the blocking wait polls the control button;
when it is pressed the sketch re-enters setup and calls `resetTimes()`. -/
def gameOverWait (inp : Input) (s : ClockState) : ClockState :=
  if inp.controlButton then
    resetTimes inp.now { s with isSetup := true, isGameOver := false }
  else s

/-- The 1-minute warning check of `loop()` (lines 107–110): beep once
when the active player's time first reaches 60000 ms or below. -/
def oneMinuteCheck (p : Player) (rem : Nat) (s : ClockState) : ClockState × List Event :=
  if rem ≤ 60000 ∧ s.hasOneMinuteWarning = false then
    ({ s with hasOneMinuteWarning := true }, [Event.warningOneMinute p])
  else (s, [])

/-- The 30-second warning check of `loop()` (lines 113–116). -/
def thirtySecondCheck (p : Player) (rem : Nat) (s : ClockState) : ClockState × List Event :=
  if rem ≤ 30000 ∧ s.hasThirtySecondWarning = false then
    ({ s with hasThirtySecondWarning := true }, [Event.warningThirtySeconds p])
  else (s, [])

/-- The final-five-seconds block of `loop()` (lines 119–128): when the
active player's time is at most 5000 ms, the countdown loop
`for (i = 5; i > 0; i--)` beeps when `remaining <= i*1000` and at least
1000 ms of wall clock passed since the previous final-seconds beep,
updating `lastFinalSecondBeep` to the current time.  Returns the new
`lastFinalSecondBeep` and the emitted beeps. -/
def finalSecondsCheck (remaining now lastBeep : Nat) : Nat × List Event :=
  if remaining ≤ 5000 then
    List.foldl
      (fun acc i =>
        if remaining ≤ i * 1000 ∧ 1000 ≤ wsub now acc.1 then
          (now, acc.2 ++ [Event.finalCountdownBeep remaining])
        else acc)
      (lastBeep, ([] : List Event)) [5, 4, 3, 2, 1]
  else (lastBeep, [])

/-- The warning/beep section of `loop()` (lines 102–129): runs only while
`isRunning`, always on the *active* player's remaining time (the
`currentPlayerTime` pointer). -/
def warningsCheck (inp : Input) (s : ClockState) : ClockState × List Event :=
  if s.isRunning then
    let p := if s.isWhiteTurn then Player.White else Player.Black
    let rem := if s.isWhiteTurn then s.whiteTime else s.blackTime
    let r1 := oneMinuteCheck p rem s
    let r2 := thirtySecondCheck p rem r1.1
    let r3 := finalSecondsCheck rem inp.now r2.1.lastFinalSecondBeep
    ({ r2.1 with lastFinalSecondBeep := r3.1 }, r1.2 ++ r2.2 ++ r3.2)
  else (s, [])

/-- One iteration of `loop()`.  In the blocking `gameOver()` wait only
the restart poll runs; in setup, `handleSetup()` runs and the warning
flags are cleared (lines 86–92); otherwise `handleGame()` runs followed
by the warning/beep section. -/
def step (inp : Input) (s : ClockState) : ClockState × List Event :=
  if s.isGameOver then (gameOverWait inp s, [])
  else if s.isSetup then
    ({ handleSetup inp s with
        hasOneMinuteWarning := false
        hasThirtySecondWarning := false
        lastFinalSecondBeep := 0 }, [])
  else
    let r1 := handleGame inp s
    let r2 := warningsCheck inp r1.1
    (r2.1, r1.2 ++ r2.2)

/-- Run a sequence of loop iterations, collecting all emitted events. -/
def run (s : ClockState) : List Input → ClockState × List Event
  | [] => (s, [])
  | inp :: rest =>
    let r := step inp s
    let r2 := run r.1 rest
    (r2.1, r.2 ++ r2.2)

/-- True when every state passed through while consuming the inputs
(including the start state) is outside setup mode — i.e. the whole
sequence stays inside a single game. -/
def avoidsSetup (s : ClockState) : List Input → Bool
  | [] => !s.isSetup
  | inp :: rest => !s.isSetup && avoidsSetup (step inp s).1 rest

/-- The state after power-on `setup()`: default option index 1 (10 min),
clocks initialised by `resetTimes()` at time 0, White to move, not
running, in setup mode. -/
def initState : ClockState :=
  { currentTimeOption := 1
    blackTime := 600000
    whiteTime := 600000
    lastUpdateTime := 0
    isWhiteTurn := true
    isRunning := false
    isSetup := true
    isGameOver := false
    hasOneMinuteWarning := false
    hasThirtySecondWarning := false
    lastFinalSecondBeep := 0 }

/-- The active player's remaining milliseconds. -/
def activeTime (s : ClockState) : Nat :=
  if s.isWhiteTurn then s.whiteTime else s.blackTime

/-- The non-active player's remaining milliseconds. -/
def inactiveTime (s : ClockState) : Nat :=
  if s.isWhiteTurn then s.blackTime else s.whiteTime

/-- `ceil(remaining / 1000)`: the whole-second value the specification
assigns to a final-countdown beep. -/
def ceilSeconds (remaining : Nat) : Nat := (remaining + 999) / 1000

/-! ## Arithmetic lemmas about the unsigned subtraction -/

theorem wsub_self (a : Nat) : wsub a a = 0 := by
  unfold wsub W32
  omega

theorem wsub_eq_sub {a b : Nat} (h1 : b ≤ a) (h2 : a < W32) : wsub a b = a - b := by
  unfold wsub W32 at *
  omega

/-! ## Projection lemmas: which fields each operation leaves alone -/

@[simp] theorem advance_isWhiteTurn (now : Nat) (s : ClockState) :
    (advance now s).isWhiteTurn = s.isWhiteTurn := by
  unfold advance; split <;> rfl

@[simp] theorem advance_isRunning (now : Nat) (s : ClockState) :
    (advance now s).isRunning = s.isRunning := by
  unfold advance; split <;> rfl

@[simp] theorem advance_isSetup (now : Nat) (s : ClockState) :
    (advance now s).isSetup = s.isSetup := by
  unfold advance; split <;> rfl

@[simp] theorem advance_isGameOver (now : Nat) (s : ClockState) :
    (advance now s).isGameOver = s.isGameOver := by
  unfold advance; split <;> rfl

@[simp] theorem advance_hasOneMinuteWarning (now : Nat) (s : ClockState) :
    (advance now s).hasOneMinuteWarning = s.hasOneMinuteWarning := by
  unfold advance; split <;> rfl

@[simp] theorem advance_hasThirtySecondWarning (now : Nat) (s : ClockState) :
    (advance now s).hasThirtySecondWarning = s.hasThirtySecondWarning := by
  unfold advance; split <;> rfl

@[simp] theorem advance_lastFinalSecondBeep (now : Nat) (s : ClockState) :
    (advance now s).lastFinalSecondBeep = s.lastFinalSecondBeep := by
  unfold advance; split <;> rfl

@[simp] theorem advance_lastUpdateTime (now : Nat) (s : ClockState) :
    (advance now s).lastUpdateTime = now := by
  unfold advance; split <;> rfl

@[simp] theorem switchTurn_whiteTime (inp : Input) (s : ClockState) :
    (switchTurn inp s).whiteTime = s.whiteTime := by
  unfold switchTurn; split <;> [rfl; split <;> rfl]

@[simp] theorem switchTurn_blackTime (inp : Input) (s : ClockState) :
    (switchTurn inp s).blackTime = s.blackTime := by
  unfold switchTurn; split <;> [rfl; split <;> rfl]

@[simp] theorem switchTurn_isRunning (inp : Input) (s : ClockState) :
    (switchTurn inp s).isRunning = s.isRunning := by
  unfold switchTurn; split <;> [rfl; split <;> rfl]

@[simp] theorem switchTurn_isSetup (inp : Input) (s : ClockState) :
    (switchTurn inp s).isSetup = s.isSetup := by
  unfold switchTurn; split <;> [rfl; split <;> rfl]

@[simp] theorem switchTurn_isGameOver (inp : Input) (s : ClockState) :
    (switchTurn inp s).isGameOver = s.isGameOver := by
  unfold switchTurn; split <;> [rfl; split <;> rfl]

@[simp] theorem switchTurn_hasOneMinuteWarning (inp : Input) (s : ClockState) :
    (switchTurn inp s).hasOneMinuteWarning = s.hasOneMinuteWarning := by
  unfold switchTurn; split <;> [rfl; split <;> rfl]

@[simp] theorem switchTurn_hasThirtySecondWarning (inp : Input) (s : ClockState) :
    (switchTurn inp s).hasThirtySecondWarning = s.hasThirtySecondWarning := by
  unfold switchTurn; split <;> [rfl; split <;> rfl]

@[simp] theorem switchTurn_lastFinalSecondBeep (inp : Input) (s : ClockState) :
    (switchTurn inp s).lastFinalSecondBeep = s.lastFinalSecondBeep := by
  unfold switchTurn; split <;> [rfl; split <;> rfl]

@[simp] theorem switchTurn_lastUpdateTime (inp : Input) (s : ClockState) :
    (switchTurn inp s).lastUpdateTime = s.lastUpdateTime := by
  unfold switchTurn; split <;> [rfl; split <;> rfl]

@[simp] theorem controlToggle_whiteTime (inp : Input) (s : ClockState) :
    (controlToggle inp s).whiteTime = s.whiteTime := by
  unfold controlToggle; split <;> rfl

@[simp] theorem controlToggle_blackTime (inp : Input) (s : ClockState) :
    (controlToggle inp s).blackTime = s.blackTime := by
  unfold controlToggle; split <;> rfl

@[simp] theorem controlToggle_isWhiteTurn (inp : Input) (s : ClockState) :
    (controlToggle inp s).isWhiteTurn = s.isWhiteTurn := by
  unfold controlToggle; split <;> rfl

@[simp] theorem controlToggle_isSetup (inp : Input) (s : ClockState) :
    (controlToggle inp s).isSetup = s.isSetup := by
  unfold controlToggle; split <;> rfl

@[simp] theorem controlToggle_isGameOver (inp : Input) (s : ClockState) :
    (controlToggle inp s).isGameOver = s.isGameOver := by
  unfold controlToggle; split <;> rfl

@[simp] theorem controlToggle_hasOneMinuteWarning (inp : Input) (s : ClockState) :
    (controlToggle inp s).hasOneMinuteWarning = s.hasOneMinuteWarning := by
  unfold controlToggle; split <;> rfl

@[simp] theorem controlToggle_hasThirtySecondWarning (inp : Input) (s : ClockState) :
    (controlToggle inp s).hasThirtySecondWarning = s.hasThirtySecondWarning := by
  unfold controlToggle; split <;> rfl

@[simp] theorem controlToggle_lastFinalSecondBeep (inp : Input) (s : ClockState) :
    (controlToggle inp s).lastFinalSecondBeep = s.lastFinalSecondBeep := by
  unfold controlToggle; split <;> rfl

@[simp] theorem resetTimes_isWhiteTurn (now : Nat) (s : ClockState) :
    (resetTimes now s).isWhiteTurn = s.isWhiteTurn := rfl

@[simp] theorem resetTimes_hasOneMinuteWarning (now : Nat) (s : ClockState) :
    (resetTimes now s).hasOneMinuteWarning = s.hasOneMinuteWarning := rfl

@[simp] theorem resetTimes_hasThirtySecondWarning (now : Nat) (s : ClockState) :
    (resetTimes now s).hasThirtySecondWarning = s.hasThirtySecondWarning := rfl

@[simp] theorem gameOverWait_isWhiteTurn (inp : Input) (s : ClockState) :
    (gameOverWait inp s).isWhiteTurn = s.isWhiteTurn := by
  unfold gameOverWait; split <;> rfl

@[simp] theorem gameOverWait_hasOneMinuteWarning (inp : Input) (s : ClockState) :
    (gameOverWait inp s).hasOneMinuteWarning = s.hasOneMinuteWarning := by
  unfold gameOverWait; split <;> rfl

@[simp] theorem gameOverWait_hasThirtySecondWarning (inp : Input) (s : ClockState) :
    (gameOverWait inp s).hasThirtySecondWarning = s.hasThirtySecondWarning := by
  unfold gameOverWait; split <;> rfl

@[simp] theorem handleSetup_isWhiteTurn (inp : Input) (s : ClockState) :
    (handleSetup inp s).isWhiteTurn = s.isWhiteTurn := by
  unfold handleSetup; split <;> split <;> split <;> rfl

/-- `handleGame` characterized: only `gameEnded` events, and all fields
other than the ones the game loop writes are untouched. -/
@[simp] theorem handleGame_hasOneMinuteWarning (inp : Input) (s : ClockState) :
    (handleGame inp s).1.hasOneMinuteWarning = s.hasOneMinuteWarning := by
  unfold handleGame; dsimp only; split <;> split <;> simp

@[simp] theorem handleGame_hasThirtySecondWarning (inp : Input) (s : ClockState) :
    (handleGame inp s).1.hasThirtySecondWarning = s.hasThirtySecondWarning := by
  unfold handleGame; dsimp only; split <;> split <;> simp

@[simp] theorem handleGame_lastFinalSecondBeep (inp : Input) (s : ClockState) :
    (handleGame inp s).1.lastFinalSecondBeep = s.lastFinalSecondBeep := by
  unfold handleGame; dsimp only; split <;> split <;> simp

@[simp] theorem oneMinuteCheck_whiteTime (p : Player) (rem : Nat) (s : ClockState) :
    (oneMinuteCheck p rem s).1.whiteTime = s.whiteTime := by
  unfold oneMinuteCheck; split <;> rfl

@[simp] theorem oneMinuteCheck_blackTime (p : Player) (rem : Nat) (s : ClockState) :
    (oneMinuteCheck p rem s).1.blackTime = s.blackTime := by
  unfold oneMinuteCheck; split <;> rfl

@[simp] theorem oneMinuteCheck_isWhiteTurn (p : Player) (rem : Nat) (s : ClockState) :
    (oneMinuteCheck p rem s).1.isWhiteTurn = s.isWhiteTurn := by
  unfold oneMinuteCheck; split <;> rfl

@[simp] theorem oneMinuteCheck_isRunning (p : Player) (rem : Nat) (s : ClockState) :
    (oneMinuteCheck p rem s).1.isRunning = s.isRunning := by
  unfold oneMinuteCheck; split <;> rfl

@[simp] theorem oneMinuteCheck_isSetup (p : Player) (rem : Nat) (s : ClockState) :
    (oneMinuteCheck p rem s).1.isSetup = s.isSetup := by
  unfold oneMinuteCheck; split <;> rfl

@[simp] theorem oneMinuteCheck_isGameOver (p : Player) (rem : Nat) (s : ClockState) :
    (oneMinuteCheck p rem s).1.isGameOver = s.isGameOver := by
  unfold oneMinuteCheck; split <;> rfl

@[simp] theorem oneMinuteCheck_lastUpdateTime (p : Player) (rem : Nat) (s : ClockState) :
    (oneMinuteCheck p rem s).1.lastUpdateTime = s.lastUpdateTime := by
  unfold oneMinuteCheck; split <;> rfl

@[simp] theorem oneMinuteCheck_hasThirtySecondWarning (p : Player) (rem : Nat) (s : ClockState) :
    (oneMinuteCheck p rem s).1.hasThirtySecondWarning = s.hasThirtySecondWarning := by
  unfold oneMinuteCheck; split <;> rfl

@[simp] theorem oneMinuteCheck_lastFinalSecondBeep (p : Player) (rem : Nat) (s : ClockState) :
    (oneMinuteCheck p rem s).1.lastFinalSecondBeep = s.lastFinalSecondBeep := by
  unfold oneMinuteCheck; split <;> rfl

@[simp] theorem thirtySecondCheck_whiteTime (p : Player) (rem : Nat) (s : ClockState) :
    (thirtySecondCheck p rem s).1.whiteTime = s.whiteTime := by
  unfold thirtySecondCheck; split <;> rfl

@[simp] theorem thirtySecondCheck_blackTime (p : Player) (rem : Nat) (s : ClockState) :
    (thirtySecondCheck p rem s).1.blackTime = s.blackTime := by
  unfold thirtySecondCheck; split <;> rfl

@[simp] theorem thirtySecondCheck_isWhiteTurn (p : Player) (rem : Nat) (s : ClockState) :
    (thirtySecondCheck p rem s).1.isWhiteTurn = s.isWhiteTurn := by
  unfold thirtySecondCheck; split <;> rfl

@[simp] theorem thirtySecondCheck_isRunning (p : Player) (rem : Nat) (s : ClockState) :
    (thirtySecondCheck p rem s).1.isRunning = s.isRunning := by
  unfold thirtySecondCheck; split <;> rfl

@[simp] theorem thirtySecondCheck_isSetup (p : Player) (rem : Nat) (s : ClockState) :
    (thirtySecondCheck p rem s).1.isSetup = s.isSetup := by
  unfold thirtySecondCheck; split <;> rfl

@[simp] theorem thirtySecondCheck_isGameOver (p : Player) (rem : Nat) (s : ClockState) :
    (thirtySecondCheck p rem s).1.isGameOver = s.isGameOver := by
  unfold thirtySecondCheck; split <;> rfl

@[simp] theorem thirtySecondCheck_lastUpdateTime (p : Player) (rem : Nat) (s : ClockState) :
    (thirtySecondCheck p rem s).1.lastUpdateTime = s.lastUpdateTime := by
  unfold thirtySecondCheck; split <;> rfl

@[simp] theorem thirtySecondCheck_hasOneMinuteWarning (p : Player) (rem : Nat) (s : ClockState) :
    (thirtySecondCheck p rem s).1.hasOneMinuteWarning = s.hasOneMinuteWarning := by
  unfold thirtySecondCheck; split <;> rfl

@[simp] theorem thirtySecondCheck_lastFinalSecondBeep (p : Player) (rem : Nat) (s : ClockState) :
    (thirtySecondCheck p rem s).1.lastFinalSecondBeep = s.lastFinalSecondBeep := by
  unfold thirtySecondCheck; split <;> rfl

/-- The countdown loop of lines 121–127 beeps exactly once when the
remaining time is within the 5-second window and at least 1000 ms of wall
clock passed since the previous final-seconds beep (afterwards the
in-loop timestamp update suppresses the remaining iterations), and not at
all otherwise. -/
theorem finalSecondsCheck_eq (remaining now lastBeep : Nat) :
    finalSecondsCheck remaining now lastBeep =
      if remaining ≤ 5000 ∧ 1000 ≤ wsub now lastBeep
      then (now, [Event.finalCountdownBeep remaining])
      else (lastBeep, []) := by
  unfold finalSecondsCheck
  by_cases h5 : remaining ≤ 5000
  · by_cases hg : 1000 ≤ wsub now lastBeep
    · simp [List.foldl, h5, hg, wsub_self]
    · simp [List.foldl, h5, hg]
  · simp [h5]

@[simp] theorem warningsCheck_whiteTime (inp : Input) (s : ClockState) :
    (warningsCheck inp s).1.whiteTime = s.whiteTime := by
  unfold warningsCheck; split <;> simp

@[simp] theorem warningsCheck_blackTime (inp : Input) (s : ClockState) :
    (warningsCheck inp s).1.blackTime = s.blackTime := by
  unfold warningsCheck; split <;> simp

@[simp] theorem warningsCheck_isWhiteTurn (inp : Input) (s : ClockState) :
    (warningsCheck inp s).1.isWhiteTurn = s.isWhiteTurn := by
  unfold warningsCheck; split <;> simp

@[simp] theorem warningsCheck_isRunning (inp : Input) (s : ClockState) :
    (warningsCheck inp s).1.isRunning = s.isRunning := by
  unfold warningsCheck; split <;> simp

@[simp] theorem warningsCheck_isSetup (inp : Input) (s : ClockState) :
    (warningsCheck inp s).1.isSetup = s.isSetup := by
  unfold warningsCheck; split <;> simp

@[simp] theorem warningsCheck_isGameOver (inp : Input) (s : ClockState) :
    (warningsCheck inp s).1.isGameOver = s.isGameOver := by
  unfold warningsCheck; split <;> simp

@[simp] theorem warningsCheck_lastUpdateTime (inp : Input) (s : ClockState) :
    (warningsCheck inp s).1.lastUpdateTime = s.lastUpdateTime := by
  unfold warningsCheck; split <;> simp

def isOneMinuteEvent : Event → Bool
  | Event.warningOneMinute _ => true
  | _ => false

def isThirtySecondEvent : Event → Bool
  | Event.warningThirtySeconds _ => true
  | _ => false

def isFinalBeepEvent : Event → Bool
  | Event.finalCountdownBeep _ => true
  | _ => false

theorem countP_handleGame (f : Event → Bool) (hf : ∀ w, f (Event.gameEnded w) = false)
    (inp : Input) (s : ClockState) : (handleGame inp s).2.countP f = 0 := by
  unfold handleGame; dsimp only; split <;> split <;> simp [hf]

theorem countP_thirtySecondCheck_oneMin (p : Player) (rem : Nat) (s : ClockState) :
    (thirtySecondCheck p rem s).2.countP isOneMinuteEvent = 0 := by
  unfold thirtySecondCheck; split <;> simp [isOneMinuteEvent]

theorem countP_oneMinuteCheck_thirty (p : Player) (rem : Nat) (s : ClockState) :
    (oneMinuteCheck p rem s).2.countP isThirtySecondEvent = 0 := by
  unfold oneMinuteCheck; split <;> simp [isThirtySecondEvent]

theorem countP_finalSecondsCheck_oneMin (rem now lb : Nat) :
    (finalSecondsCheck rem now lb).2.countP isOneMinuteEvent = 0 := by
  rw [finalSecondsCheck_eq]; split <;> simp [isOneMinuteEvent]

theorem countP_finalSecondsCheck_thirty (rem now lb : Nat) :
    (finalSecondsCheck rem now lb).2.countP isThirtySecondEvent = 0 := by
  rw [finalSecondsCheck_eq]; split <;> simp [isThirtySecondEvent]

theorem oneMinuteCheck_bound (p : Player) (rem : Nat) (s : ClockState) :
    (oneMinuteCheck p rem s).2.countP isOneMinuteEvent + s.hasOneMinuteWarning.toNat
      ≤ ((oneMinuteCheck p rem s).1.hasOneMinuteWarning).toNat := by
  unfold oneMinuteCheck; split_ifs with h
  · simp [isOneMinuteEvent, h.2]
  · simp

theorem thirtySecondCheck_bound (p : Player) (rem : Nat) (s : ClockState) :
    (thirtySecondCheck p rem s).2.countP isThirtySecondEvent + s.hasThirtySecondWarning.toNat
      ≤ ((thirtySecondCheck p rem s).1.hasThirtySecondWarning).toNat := by
  unfold thirtySecondCheck; split_ifs with h
  · simp [isThirtySecondEvent, h.2]
  · simp

theorem warningsCheck_oneMin_bound (inp : Input) (s : ClockState) :
    (warningsCheck inp s).2.countP isOneMinuteEvent + s.hasOneMinuteWarning.toNat
      ≤ ((warningsCheck inp s).1.hasOneMinuteWarning).toNat := by
  unfold warningsCheck
  dsimp only
  split
  · simp only [List.countP_append, countP_thirtySecondCheck_oneMin,
      countP_finalSecondsCheck_oneMin, Nat.add_zero, thirtySecondCheck_hasOneMinuteWarning]
    exact oneMinuteCheck_bound _ _ _
  · simp

theorem warningsCheck_thirty_bound (inp : Input) (s : ClockState) :
    (warningsCheck inp s).2.countP isThirtySecondEvent + s.hasThirtySecondWarning.toNat
      ≤ ((warningsCheck inp s).1.hasThirtySecondWarning).toNat := by
  unfold warningsCheck
  dsimp only
  split
  · simp only [List.countP_append, countP_oneMinuteCheck_thirty,
      countP_finalSecondsCheck_thirty, Nat.zero_add, Nat.add_zero]
    have h1 := thirtySecondCheck_bound (if s.isWhiteTurn then Player.White else Player.Black)
      (if s.isWhiteTurn then s.whiteTime else s.blackTime)
      (oneMinuteCheck (if s.isWhiteTurn then Player.White else Player.Black)
        (if s.isWhiteTurn then s.whiteTime else s.blackTime) s).1
    simp only [oneMinuteCheck_hasThirtySecondWarning] at h1
    exact h1
  · simp

theorem step_oneMin_bound (inp : Input) (s : ClockState) (h : s.isSetup = false) :
    (step inp s).2.countP isOneMinuteEvent + s.hasOneMinuteWarning.toNat
      ≤ ((step inp s).1.hasOneMinuteWarning).toNat := by
  unfold step
  cases hG : s.isGameOver
  · simp only [hG, h, Bool.false_eq_true, if_false]
    rw [List.countP_append, countP_handleGame isOneMinuteEvent (fun w => rfl)]
    have h1 := warningsCheck_oneMin_bound inp (handleGame inp s).1
    simp only [handleGame_hasOneMinuteWarning] at h1
    omega
  · simp [hG]

theorem step_thirty_bound (inp : Input) (s : ClockState) (h : s.isSetup = false) :
    (step inp s).2.countP isThirtySecondEvent + s.hasThirtySecondWarning.toNat
      ≤ ((step inp s).1.hasThirtySecondWarning).toNat := by
  unfold step
  cases hG : s.isGameOver
  · simp only [hG, h, Bool.false_eq_true, if_false]
    rw [List.countP_append, countP_handleGame isThirtySecondEvent (fun w => rfl)]
    have h1 := warningsCheck_thirty_bound inp (handleGame inp s).1
    simp only [handleGame_hasThirtySecondWarning] at h1
    omega
  · simp [hG]

theorem run_oneMin_bound (l : List Input) (s : ClockState) (h : avoidsSetup s l = true) :
    (run s l).2.countP isOneMinuteEvent + s.hasOneMinuteWarning.toNat ≤ 1 := by
  induction l generalizing s with
  | nil =>
    simp only [run, List.countP_nil, Nat.zero_add]
    cases s.hasOneMinuteWarning <;> simp
  | cons i rest ih =>
    simp only [avoidsSetup, Bool.and_eq_true, Bool.not_eq_eq_eq_not, Bool.not_true] at h
    obtain ⟨hs, hrest⟩ := h
    have h1 := step_oneMin_bound i s (by simpa using hs)
    have h2 := ih (step i s).1 hrest
    simp only [run, List.countP_append]
    omega

theorem run_thirty_bound (l : List Input) (s : ClockState) (h : avoidsSetup s l = true) :
    (run s l).2.countP isThirtySecondEvent + s.hasThirtySecondWarning.toNat ≤ 1 := by
  induction l generalizing s with
  | nil =>
    simp only [run, List.countP_nil, Nat.zero_add]
    cases s.hasThirtySecondWarning <;> simp
  | cons i rest ih =>
    simp only [avoidsSetup, Bool.and_eq_true, Bool.not_eq_eq_eq_not, Bool.not_true] at h
    obtain ⟨hs, hrest⟩ := h
    have h1 := step_thirty_bound i s (by simpa using hs)
    have h2 := ih (step i s).1 hrest
    simp only [run, List.countP_append]
    omega

theorem step_whiteTime_eq (i : Input) (s : ClockState)
    (hs : s.isSetup = false) (hg : s.isGameOver = false) :
    (step i s).1.whiteTime = (handleGame i s).1.whiteTime := by
  unfold step; simp only [hs, hg, Bool.false_eq_true, if_false]; simp

theorem step_blackTime_eq (i : Input) (s : ClockState)
    (hs : s.isSetup = false) (hg : s.isGameOver = false) :
    (step i s).1.blackTime = (handleGame i s).1.blackTime := by
  unfold step; simp only [hs, hg, Bool.false_eq_true, if_false]; simp

theorem step_isGameOver_eq (i : Input) (s : ClockState)
    (hs : s.isSetup = false) (hg : s.isGameOver = false) :
    (step i s).1.isGameOver = (handleGame i s).1.isGameOver := by
  unfold step; simp only [hs, hg, Bool.false_eq_true, if_false]; simp

theorem step_isWhiteTurn_eq (i : Input) (s : ClockState)
    (hs : s.isSetup = false) (hg : s.isGameOver = false) :
    (step i s).1.isWhiteTurn = (handleGame i s).1.isWhiteTurn := by
  unfold step; simp only [hs, hg, Bool.false_eq_true, if_false]; simp

theorem step_lastUpdateTime_eq (i : Input) (s : ClockState)
    (hs : s.isSetup = false) (hg : s.isGameOver = false) :
    (step i s).1.lastUpdateTime = (handleGame i s).1.lastUpdateTime := by
  unfold step; simp only [hs, hg, Bool.false_eq_true, if_false]; simp

theorem step_mem_of_handleGame (i : Input) (s : ClockState) (e : Event)
    (hs : s.isSetup = false) (hg : s.isGameOver = false)
    (h : e ∈ (handleGame i s).2) : e ∈ (step i s).2 := by
  unfold step; simp only [hs, hg, Bool.false_eq_true, if_false]
  exact List.mem_append_left _ h

/-- C3 (claim): while Running, `advance` debits `now - lastUpdate` from the
active player's clock, flooring at zero; the inactive clock is untouched
and the active clock never increases (no unsigned wraparound). -/
theorem advance_floor_at_zero (s : ClockState) (now : Nat)
    (hr : s.isRunning = true) (hle : s.lastUpdateTime ≤ now) (hlt : now < W32) :
    activeTime (advance now s) =
      (if activeTime s ≤ now - s.lastUpdateTime then 0
       else activeTime s - (now - s.lastUpdateTime))
    ∧ inactiveTime (advance now s) = inactiveTime s
    ∧ activeTime (advance now s) ≤ activeTime s := by
  have he : wsub now s.lastUpdateTime = now - s.lastUpdateTime := wsub_eq_sub hle hlt
  unfold advance activeTime inactiveTime
  dsimp only
  cases hW : s.isWhiteTurn <;> simp [hW, he] <;> split <;> omega

/-- C7 (claim): a second `advance` with the same `now` computes elapsed 0
and leaves both clocks unchanged. -/
theorem advance_idempotent (s : ClockState) (now : Nat) (hr : s.isRunning = true) :
    (advance now (advance now s)).whiteTime = (advance now s).whiteTime
    ∧ (advance now (advance now s)).blackTime = (advance now s).blackTime
    ∧ wsub now (advance now s).lastUpdateTime = 0 := by
  unfold advance
  dsimp only
  cases hW : s.isWhiteTurn <;> simp [hW, wsub_self] <;> split <;> omega

theorem handleGame_end (i : Input) (s : ClockState) (hg : s.isGameOver = false) :
    ((handleGame i s).1.isGameOver = true ↔
      ((handleGame i s).1.whiteTime = 0 ∨ (handleGame i s).1.blackTime = 0))
    ∧ ((handleGame i s).1.whiteTime = 0 →
        Event.gameEnded Player.Black ∈ (handleGame i s).2)
    ∧ ((handleGame i s).1.blackTime = 0 → (handleGame i s).1.whiteTime ≠ 0 →
        Event.gameEnded Player.White ∈ (handleGame i s).2) := by
  unfold handleGame
  dsimp only
  split <;> split <;>
    refine ⟨?_, ?_, ?_⟩ <;>
    simp_all [winnerOf, hg]

theorem advance_same_now (now : Nat) (s : ClockState) (h : s.lastUpdateTime = now) :
    (advance now s).whiteTime = s.whiteTime ∧ (advance now s).blackTime = s.blackTime := by
  unfold advance
  dsimp only
  rw [h, wsub_self]
  cases hW : s.isWhiteTurn <;> simp [hW] <;> omega

theorem handleGame_times_frozen (i : Input) (s : ClockState) (hr : s.isRunning = false) :
    (handleGame i s).1.whiteTime = s.whiteTime
    ∧ (handleGame i s).1.blackTime = s.blackTime := by
  unfold handleGame controlToggle
  dsimp only
  by_cases hc : i.controlButton = true
  · simp only [hc, if_true, hr, Bool.not_false, if_true]
    have ha := advance_same_now i.now
      { s with isRunning := !s.isRunning, lastUpdateTime := i.now } rfl
    dsimp only at ha
    split <;> simp_all
  · simp only [hc, if_false, hr, Bool.false_eq_true, if_false]
    split <;> simp_all

theorem handleGame_control_lastUpdate (i : Input) (s : ClockState)
    (hc : i.controlButton = true) :
    (handleGame i s).1.lastUpdateTime = i.now := by
  unfold handleGame controlToggle
  simp only [hc, if_true]
  split <;> split <;> simp

/-- C2 (claim): a running clock reaching exactly 0 is exactly what sends the
engine to game over; the player whose clock did not hit zero is announced
winner; and while in the game-over wait no step (short of the restart)
touches either clock. -/
theorem gameOver_entry_and_freeze (s : ClockState) (i : Input)
    (hs : s.isSetup = false) (hg : s.isGameOver = false) :
    ((step i s).1.isGameOver = true ↔
      ((step i s).1.whiteTime = 0 ∨ (step i s).1.blackTime = 0))
    ∧ ((step i s).1.whiteTime = 0 → Event.gameEnded Player.Black ∈ (step i s).2)
    ∧ ((step i s).1.blackTime = 0 → (step i s).1.whiteTime ≠ 0 →
        Event.gameEnded Player.White ∈ (step i s).2)
    ∧ (∀ t : ClockState, ∀ j : Input, t.isGameOver = true → j.controlButton = false →
        (step j t).1.whiteTime = t.whiteTime ∧ (step j t).1.blackTime = t.blackTime) := by
  obtain ⟨h1, h2, h3⟩ := handleGame_end i s hg
  rw [step_whiteTime_eq i s hs hg, step_blackTime_eq i s hs hg, step_isGameOver_eq i s hs hg]
  refine ⟨h1, fun hw => step_mem_of_handleGame i s _ hs hg (h2 hw),
    fun hb hw => step_mem_of_handleGame i s _ hs hg (h3 hb hw), ?_⟩
  intro t j ht hj
  unfold step gameOverWait
  simp [ht, hj]

/-- C10 (claim, implicit): when both clocks are 0 at the game-end check,
Black is declared the winner, because `whiteTime` is tested first. -/
theorem both_zero_black_wins (s : ClockState) (i : Input)
    (hs : s.isSetup = false) (hg : s.isGameOver = false)
    (hw : (step i s).1.whiteTime = 0) (hb : (step i s).1.blackTime = 0) :
    Event.gameEnded Player.Black ∈ (step i s).2 ∧ winnerOf 0 0 = Player.Black := by
  obtain ⟨h1, h2, h3⟩ := handleGame_end i s hg
  rw [step_whiteTime_eq i s hs hg] at hw
  exact ⟨step_mem_of_handleGame i s _ hs hg (h2 hw), by simp [winnerOf]⟩

/-- C4 (claim): outside `Running` (paused or game over) neither clock is
debited whatever `now` is, and the transition into `Running` stamps
`lastUpdate = now`. -/
theorem paused_clocks_frozen (s : ClockState) (i : Input) :
    (s.isSetup = false → s.isGameOver = false → s.isRunning = false →
      (step i s).1.whiteTime = s.whiteTime ∧ (step i s).1.blackTime = s.blackTime)
    ∧ (s.isGameOver = true → i.controlButton = false →
      (step i s).1.whiteTime = s.whiteTime ∧ (step i s).1.blackTime = s.blackTime)
    ∧ (s.isSetup = false → s.isGameOver = false → s.isRunning = false →
        i.controlButton = true → (step i s).1.lastUpdateTime = i.now) := by
  refine ⟨fun hs hg hr => ?_, fun ht hj => ?_, fun hs hg hr hc => ?_⟩
  · rw [step_whiteTime_eq i s hs hg, step_blackTime_eq i s hs hg]
    exact handleGame_times_frozen i s hr
  · unfold step gameOverWait
    simp [ht, hj]
  · rw [step_lastUpdateTime_eq i s hs hg]
    exact handleGame_control_lastUpdate i s hc

/-- C9 (claim, implicit): neither setup (including the confirm press) nor
the game-over wait (including the restart press) touches `isWhiteTurn`,
so the active player carries over into the next game. -/
theorem activeTurn_carries_over (s : ClockState) (i : Input) :
    (s.isSetup = true → s.isGameOver = false → (step i s).1.isWhiteTurn = s.isWhiteTurn)
    ∧ (s.isGameOver = true → (step i s).1.isWhiteTurn = s.isWhiteTurn) := by
  constructor
  · intro hs hg
    unfold step
    simp [hs, hg]
  · intro hgo
    unfold step
    simp [hgo]

/-- C8 (claim): confirming setup with option index `k` (the option set is
`TIME_OPTIONS = [120, 600, 1800, 3600]` seconds) sets both clocks to
exactly the selected duration in milliseconds. -/
theorem confirmSetup_sets_both_clocks (s : ClockState) (i : Input)
    (hs : s.isSetup = true) (hg : s.isGameOver = false)
    (hc : i.controlButton = true) (hb : i.bButton = false) (hw : i.wButton = false)
    (hlt : s.currentTimeOption < NUM_OPTIONS) :
    TIME_OPTIONS.getD s.currentTimeOption 0 ∈ TIME_OPTIONS
    ∧ (step i s).1.whiteTime = TIME_OPTIONS.getD s.currentTimeOption 0 * 1000
    ∧ (step i s).1.blackTime = TIME_OPTIONS.getD s.currentTimeOption 0 * 1000
    ∧ (step i s).1.isSetup = false := by
  have hmem : TIME_OPTIONS.getD s.currentTimeOption 0 ∈ TIME_OPTIONS := by
    have h4 : s.currentTimeOption = 0 ∨ s.currentTimeOption = 1 ∨ s.currentTimeOption = 2
        ∨ s.currentTimeOption = 3 := by
      unfold NUM_OPTIONS at hlt
      omega
    rcases h4 with h | h | h | h <;> rw [h] <;> simp [TIME_OPTIONS]
  refine ⟨hmem, ?_, ?_, ?_⟩ <;>
  · unfold step handleSetup resetTimes
    simp [hs, hg, hb, hw, hc]

theorem step_turn_running (s : ClockState) (i : Input)
    (hs : s.isSetup = false) (hg : s.isGameOver = false)
    (hr : s.isRunning = true) (hc : i.controlButton = false) :
    (step i s).1.isWhiteTurn = (switchTurn i (advance i.now s)).isWhiteTurn := by
  rw [step_isWhiteTurn_eq i s hs hg]
  unfold handleGame controlToggle
  simp only [hc, Bool.false_eq_true, if_false, hr, if_true]
  split <;> simp

/-- C1 (amended): while Running, the *active* player's own button ends
their turn (flips ActiveTurn), and the non-active player's button is the
no-op — the reverse of the claimed roles. -/
theorem switchTurn_active_button_flips (s : ClockState) (i : Input)
    (hs : s.isSetup = false) (hg : s.isGameOver = false)
    (hr : s.isRunning = true) (hc : i.controlButton = false) :
    (s.isWhiteTurn = true → i.wButton = true → (step i s).1.isWhiteTurn = false)
    ∧ (s.isWhiteTurn = true → i.wButton = false → (step i s).1.isWhiteTurn = true)
    ∧ (s.isWhiteTurn = false → i.bButton = true → (step i s).1.isWhiteTurn = true)
    ∧ (s.isWhiteTurn = false → i.bButton = false → (step i s).1.isWhiteTurn = false) := by
  have ht := step_turn_running s i hs hg hr hc
  refine ⟨fun hW hbtn => ?_, fun hW hbtn => ?_, fun hW hbtn => ?_, fun hW hbtn => ?_⟩ <;>
    rw [ht] <;> unfold switchTurn <;> simp [hW, hbtn]

theorem countP_oneMinuteCheck_final (p : Player) (rem : Nat) (s : ClockState) :
    (oneMinuteCheck p rem s).2.countP isFinalBeepEvent = 0 := by
  unfold oneMinuteCheck; split <;> simp [isFinalBeepEvent]

theorem countP_thirtySecondCheck_final (p : Player) (rem : Nat) (s : ClockState) :
    (thirtySecondCheck p rem s).2.countP isFinalBeepEvent = 0 := by
  unfold thirtySecondCheck; split <;> simp [isFinalBeepEvent]

theorem finalBeep_not_mem_oneMinuteCheck (r : Nat) (p : Player) (rem : Nat) (s : ClockState) :
    Event.finalCountdownBeep r ∉ (oneMinuteCheck p rem s).2 := by
  unfold oneMinuteCheck; split <;> simp

theorem finalBeep_not_mem_thirtySecondCheck (r : Nat) (p : Player) (rem : Nat) (s : ClockState) :
    Event.finalCountdownBeep r ∉ (thirtySecondCheck p rem s).2 := by
  unfold thirtySecondCheck; split <;> simp

theorem finalBeep_not_mem_handleGame (r : Nat) (i : Input) (s : ClockState) :
    Event.finalCountdownBeep r ∉ (handleGame i s).2 := by
  unfold handleGame; dsimp only; split <;> split <;> simp

theorem warnTriple_final (i : Input) (p : Player) (rem : Nat) (s : ClockState) :
    ((oneMinuteCheck p rem s).2 ++
      (thirtySecondCheck p rem (oneMinuteCheck p rem s).1).2 ++
      (finalSecondsCheck rem i.now
        (thirtySecondCheck p rem (oneMinuteCheck p rem s).1).1.lastFinalSecondBeep).2).countP
        isFinalBeepEvent ≤ 1
    ∧ ∀ r : Nat, Event.finalCountdownBeep r ∈
        ((oneMinuteCheck p rem s).2 ++
          (thirtySecondCheck p rem (oneMinuteCheck p rem s).1).2 ++
          (finalSecondsCheck rem i.now
            (thirtySecondCheck p rem (oneMinuteCheck p rem s).1).1.lastFinalSecondBeep).2) →
        1000 ≤ wsub i.now s.lastFinalSecondBeep
        ∧ (finalSecondsCheck rem i.now
            (thirtySecondCheck p rem (oneMinuteCheck p rem s).1).1.lastFinalSecondBeep).1 = i.now
        ∧ r ≤ 5000 := by
  rw [finalSecondsCheck_eq]
  simp only [thirtySecondCheck_lastFinalSecondBeep, oneMinuteCheck_lastFinalSecondBeep]
  split_ifs with hcond
  · constructor
    · simp only [List.countP_append, countP_oneMinuteCheck_final,
        countP_thirtySecondCheck_final]
      simp [isFinalBeepEvent]
    · intro r hr
      simp only [List.mem_append] at hr
      rcases hr with (hr | hr) | hr
      · exact absurd hr (finalBeep_not_mem_oneMinuteCheck r _ _ _)
      · exact absurd hr (finalBeep_not_mem_thirtySecondCheck r _ _ _)
      · simp only [List.mem_singleton, Event.finalCountdownBeep.injEq] at hr
        subst hr
        exact ⟨hcond.2, rfl, hcond.1⟩
  · constructor
    · simp only [List.countP_append, countP_oneMinuteCheck_final,
        countP_thirtySecondCheck_final]
      simp
    · intro r hr
      simp only [List.mem_append] at hr
      rcases hr with (hr | hr) | hr
      · exact absurd hr (finalBeep_not_mem_oneMinuteCheck r _ _ _)
      · exact absurd hr (finalBeep_not_mem_thirtySecondCheck r _ _ _)
      · simp at hr

theorem warningsCheck_final_bound (i : Input) (s : ClockState) :
    (warningsCheck i s).2.countP isFinalBeepEvent ≤ 1
    ∧ ∀ r : Nat, Event.finalCountdownBeep r ∈ (warningsCheck i s).2 →
        1000 ≤ wsub i.now s.lastFinalSecondBeep
        ∧ (warningsCheck i s).1.lastFinalSecondBeep = i.now
        ∧ r ≤ 5000 := by
  unfold warningsCheck
  dsimp only
  split
  case isTrue hrun =>
    have h := warnTriple_final i (if s.isWhiteTurn then Player.White else Player.Black)
      (if s.isWhiteTurn then s.whiteTime else s.blackTime) s
    exact ⟨h.1, fun r hr => ⟨(h.2 r hr).1, (h.2 r hr).2.1, (h.2 r hr).2.2⟩⟩
  case isFalse hrun =>
    simp

/-- C6 (amended): a final-countdown beep fires only with the active clock
at 5000 ms or below, at most once per loop iteration, and only when at
least 1000 ms of wall clock passed since the previous final-countdown
beep, whose timestamp it then overwrites — so consecutive beeps are at
least 1000 ms of wall-clock time apart within a game; the sketch does not
limit the beep to one per distinct second value `ceil(remaining/1000)`. -/
theorem finalBeep_rate_limited (i : Input) (s : ClockState)
    (hs : s.isSetup = false) (hg : s.isGameOver = false) :
    (step i s).2.countP isFinalBeepEvent ≤ 1
    ∧ ∀ r : Nat, Event.finalCountdownBeep r ∈ (step i s).2 →
        1000 ≤ wsub i.now s.lastFinalSecondBeep
        ∧ (step i s).1.lastFinalSecondBeep = i.now
        ∧ r ≤ 5000 := by
  have hW := warningsCheck_final_bound i (handleGame i s).1
  rw [handleGame_lastFinalSecondBeep] at hW
  unfold step
  simp only [hs, hg, Bool.false_eq_true, if_false]
  constructor
  · rw [List.countP_append, countP_handleGame isFinalBeepEvent (fun w => rfl)]
    simpa using hW.1
  · intro r hr
    rw [List.mem_append] at hr
    rcases hr with hr | hr
    · exact absurd hr (finalBeep_not_mem_handleGame r i s)
    · have hR := hW.2 r hr
      exact ⟨hR.1, hR.2.1, hR.2.2⟩

theorem countP_le_of_imp {α : Type} (l : List α) (f g : α → Bool)
    (h : ∀ e, f e = true → g e = true) : l.countP f ≤ l.countP g := by
  induction l with
  | nil => simp
  | cons a t ih =>
    simp only [List.countP_cons]
    by_cases ha : f a = true
    · rw [if_pos ha, if_pos (h a ha)]
      omega
    · rw [if_neg ha]
      split <;> omega

/-- C5 (claim): within a single game (a run of loop iterations never
re-entering setup, started with both warning flags clear, as they are
right after a setup confirm), each warning kind fires at most once for a
given player — the sketch's shared flags in fact allow at most one firing
per game in total. -/
theorem warnings_fire_at_most_once_per_game (s : ClockState) (l : List Input) (p : Player)
    (hA : avoidsSetup s l = true)
    (h1 : s.hasOneMinuteWarning = false) (h2 : s.hasThirtySecondWarning = false) :
    (run s l).2.countP (fun e => decide (e = Event.warningOneMinute p)) ≤ 1
    ∧ (run s l).2.countP (fun e => decide (e = Event.warningThirtySeconds p)) ≤ 1 := by
  have b1 := run_oneMin_bound l s hA
  have b2 := run_thirty_bound l s hA
  rw [h1] at b1
  rw [h2] at b2
  simp only [Bool.toNat_false, Nat.add_zero] at b1 b2
  constructor
  · refine le_trans (countP_le_of_imp _ _ _ ?_) b1
    intro e he
    have he2 : e = Event.warningOneMinute p := of_decide_eq_true he
    subst he2
    rfl
  · refine le_trans (countP_le_of_imp _ _ _ ?_) b2
    intro e he
    have he2 : e = Event.warningThirtySeconds p := of_decide_eq_true he
    subst he2
    rfl

/-! ## Concrete states and traces used by the counterexamples and witnesses -/

/-- A mid-game Running state: White active, both clocks at 10 minutes. -/
def c1State : ClockState :=
  { currentTimeOption := 1, blackTime := 600000, whiteTime := 600000, lastUpdateTime := 1000,
    isWhiteTurn := true, isRunning := true, isSetup := false, isGameOver := false,
    hasOneMinuteWarning := false, hasThirtySecondWarning := false, lastFinalSecondBeep := 0 }

def c1PressW : Input := ⟨false, true, false, 1000⟩

def c1PressB : Input := ⟨true, false, false, 1000⟩

/-- C1 counterexample: with White active and Running, a press of White's
own button — the *active* player's button — flips the turn (so it is not
a no-op), while a press of Black's button — the *non-active* player's —
leaves the turn unchanged (so it does not flip ActiveTurn).  Both halves
of the claim fail on this state. -/
theorem switchTurn_claim_counterexample :
    c1State.isRunning = true ∧ c1State.isWhiteTurn = true
    ∧ c1PressW.wButton = true ∧ c1PressB.bButton = true
    ∧ (step c1PressW c1State).1.isWhiteTurn = false
    ∧ (step c1PressB c1State).1.isWhiteTurn = true := by decide

/-- C1 witness: the amended theorem applied to the same concrete state. -/
theorem switchTurn_active_button_flips_witness :
    (c1State.isWhiteTurn = true → c1PressW.wButton = true →
      (step c1PressW c1State).1.isWhiteTurn = false)
    ∧ (c1State.isWhiteTurn = true → c1PressW.wButton = false →
      (step c1PressW c1State).1.isWhiteTurn = true)
    ∧ (c1State.isWhiteTurn = false → c1PressW.bButton = true →
      (step c1PressW c1State).1.isWhiteTurn = true)
    ∧ (c1State.isWhiteTurn = false → c1PressW.bButton = false →
      (step c1PressW c1State).1.isWhiteTurn = false) :=
  switchTurn_active_button_flips c1State c1PressW rfl rfl rfl rfl

/-- Running, White active, 50 ms left on White's clock. -/
def c2State : ClockState :=
  { currentTimeOption := 1, blackTime := 100000, whiteTime := 50, lastUpdateTime := 1000,
    isWhiteTurn := true, isRunning := true, isSetup := false, isGameOver := false,
    hasOneMinuteWarning := true, hasThirtySecondWarning := true, lastFinalSecondBeep := 0 }

def c2Input : Input := ⟨false, false, false, 1050⟩

/-- A state inside the game-over wait. -/
def c2GoState : ClockState :=
  { c2State with isRunning := false, isGameOver := true, whiteTime := 0 }

def c2GoInput : Input := ⟨false, false, false, 999999⟩

/-- C2 witness: debiting White's last 50 ms enters game over with Black
announced winner, and a further step in the game-over wait moves neither
clock. -/
theorem gameOver_entry_and_freeze_witness :
    (step c2Input c2State).1.isGameOver = true
    ∧ Event.gameEnded Player.Black ∈ (step c2Input c2State).2
    ∧ (step c2GoInput c2GoState).1.whiteTime = c2GoState.whiteTime
    ∧ (step c2GoInput c2GoState).1.blackTime = c2GoState.blackTime := by
  obtain ⟨h1, h2, h3, h4⟩ := gameOver_entry_and_freeze c2State c2Input rfl rfl
  exact ⟨h1.mpr (by decide), h2 (by decide), (h4 c2GoState c2GoInput rfl rfl).1,
    (h4 c2GoState c2GoInput rfl rfl).2⟩

/-- Running, White active, 10 s left, last update at 1000 ms. -/
def c3State : ClockState :=
  { currentTimeOption := 0, blackTime := 20000, whiteTime := 10000, lastUpdateTime := 1000,
    isWhiteTurn := true, isRunning := true, isSetup := false, isGameOver := false,
    hasOneMinuteWarning := true, hasThirtySecondWarning := true, lastFinalSecondBeep := 0 }

/-- C3 witness: the debit theorem applied at `now = 4000`. -/
theorem advance_floor_at_zero_witness :
    (activeTime (advance 4000 c3State) =
      (if activeTime c3State ≤ 4000 - c3State.lastUpdateTime then 0
       else activeTime c3State - (4000 - c3State.lastUpdateTime)))
    ∧ inactiveTime (advance 4000 c3State) = inactiveTime c3State
    ∧ activeTime (advance 4000 c3State) ≤ activeTime c3State :=
  advance_floor_at_zero c3State 4000 rfl (by decide) (by decide)

/-- A paused mid-game state. -/
def c4Paused : ClockState :=
  { currentTimeOption := 1, blackTime := 300000, whiteTime := 300000, lastUpdateTime := 1000,
    isWhiteTurn := false, isRunning := false, isSetup := false, isGameOver := false,
    hasOneMinuteWarning := false, hasThirtySecondWarning := false, lastFinalSecondBeep := 0 }

def c4Go : ClockState :=
  { c4Paused with isGameOver := true, blackTime := 0 }

def c4Idle : Input := ⟨false, false, false, 90000⟩

def c4Resume : Input := ⟨false, false, true, 5000⟩

/-- C4 witness: 89 s of wall clock elapse while paused and while in the
game-over wait with no debit, and resuming stamps `lastUpdate` with the
resume time. -/
theorem paused_clocks_frozen_witness :
    ((step c4Idle c4Paused).1.whiteTime = c4Paused.whiteTime
      ∧ (step c4Idle c4Paused).1.blackTime = c4Paused.blackTime)
    ∧ ((step c4Idle c4Go).1.whiteTime = c4Go.whiteTime
      ∧ (step c4Idle c4Go).1.blackTime = c4Go.blackTime)
    ∧ (step c4Resume c4Paused).1.lastUpdateTime = 5000 :=
  ⟨(paused_clocks_frozen c4Paused c4Idle).1 rfl rfl rfl,
   (paused_clocks_frozen c4Go c4Idle).2.1 rfl rfl,
   (paused_clocks_frozen c4Paused c4Resume).2.2 rfl rfl rfl rfl⟩

def confirmPress : Input := ⟨false, false, true, 0⟩

/-- The game state right after confirming the default 10-minute option at
power-on: both clocks 600000 ms, paused, warning flags clear. -/
def gameStart : ClockState := (step confirmPress initState).1

def c5Trace : List Input :=
  [⟨false, false, true, 0⟩, ⟨false, false, false, 595500⟩]

/-- C5 witness: a game in which White runs from 600000 ms down to 4500 ms
in one debit, firing both warnings, each exactly once. -/
theorem warnings_fire_at_most_once_per_game_witness :
    (run gameStart c5Trace).2.countP
        (fun e => decide (e = Event.warningOneMinute Player.White)) ≤ 1
    ∧ (run gameStart c5Trace).2.countP
        (fun e => decide (e = Event.warningThirtySeconds Player.White)) ≤ 1 :=
  warnings_fire_at_most_once_per_game gameStart c5Trace Player.White
    (by decide) (by decide) (by decide)

def c6Trace : List Input :=
  [⟨false, false, true, 0⟩, ⟨false, false, false, 595500⟩,
   ⟨false, false, true, 595600⟩, ⟨false, false, true, 596700⟩]

/-- C6 counterexample: start the default 10-minute game, run White down
to 4500 ms remaining (one beep fires, `ceil(4500/1000) = 5`), pause at
595600 ms, resume at 596700 ms: the final-countdown beep fires again
with White still at 4500 ms — the second value `s = 5` beeps twice within
one game (the trace never re-enters setup). -/
theorem finalBeep_per_second_counterexample :
    avoidsSetup gameStart c6Trace = true
    ∧ ((run gameStart c6Trace).2.countP fun e =>
        match e with
        | Event.finalCountdownBeep r => ceilSeconds r == 5
        | _ => false) = 2 := by decide

/-- Running, White active at 4600 ms, 100 ms since the last update, no
final beep yet this game. -/
def c6WitState : ClockState :=
  { currentTimeOption := 1, blackTime := 600000, whiteTime := 4600, lastUpdateTime := 1900,
    isWhiteTurn := true, isRunning := true, isSetup := false, isGameOver := false,
    hasOneMinuteWarning := true, hasThirtySecondWarning := true, lastFinalSecondBeep := 0 }

def c6WitInput : Input := ⟨false, false, false, 2000⟩

/-- C6 witness: the amended rate-limit theorem applied where a beep fires
at 4500 ms remaining. -/
theorem finalBeep_rate_limited_witness :
    (step c6WitInput c6WitState).2.countP isFinalBeepEvent ≤ 1
    ∧ (1000 ≤ wsub c6WitInput.now c6WitState.lastFinalSecondBeep
       ∧ (step c6WitInput c6WitState).1.lastFinalSecondBeep = c6WitInput.now
       ∧ 4500 ≤ 5000) := by
  have h := finalBeep_rate_limited c6WitInput c6WitState rfl rfl
  exact ⟨h.1, h.2 4500 (by decide)⟩

/-- Running, Black active. -/
def c7State : ClockState :=
  { currentTimeOption := 2, blackTime := 7000, whiteTime := 5500, lastUpdateTime := 2500,
    isWhiteTurn := false, isRunning := true, isSetup := false, isGameOver := false,
    hasOneMinuteWarning := true, hasThirtySecondWarning := true, lastFinalSecondBeep := 0 }

/-- C7 witness: the idempotence theorem applied at `now = 4000`. -/
theorem advance_idempotent_witness :
    (advance 4000 (advance 4000 c7State)).whiteTime = (advance 4000 c7State).whiteTime
    ∧ (advance 4000 (advance 4000 c7State)).blackTime = (advance 4000 c7State).blackTime
    ∧ wsub 4000 (advance 4000 c7State).lastUpdateTime = 0 :=
  advance_idempotent c7State 4000 rfl

/-- C8 witness: confirming at power-on (default option index 1 = 600 s)
sets both clocks to 600000 ms. -/
theorem confirmSetup_sets_both_clocks_witness :
    TIME_OPTIONS.getD initState.currentTimeOption 0 ∈ TIME_OPTIONS
    ∧ (step confirmPress initState).1.whiteTime
        = TIME_OPTIONS.getD initState.currentTimeOption 0 * 1000
    ∧ (step confirmPress initState).1.blackTime
        = TIME_OPTIONS.getD initState.currentTimeOption 0 * 1000
    ∧ (step confirmPress initState).1.isSetup = false :=
  confirmSetup_sets_both_clocks initState confirmPress rfl rfl rfl rfl rfl (by decide)

/-- In setup with Black as the carried-over active player. -/
def c9SetupState : ClockState := { initState with isWhiteTurn := false }

/-- In the game-over wait with Black as the active player. -/
def c9GoState : ClockState :=
  { initState with isSetup := false, isGameOver := true, isWhiteTurn := false, whiteTime := 0 }

def c9Press : Input := ⟨false, false, true, 77⟩

/-- C9 witness: a confirm press in setup and a restart press in the
game-over wait both leave Black as the active player. -/
theorem activeTurn_carries_over_witness :
    (step c9Press c9SetupState).1.isWhiteTurn = c9SetupState.isWhiteTurn
    ∧ (step c9Press c9GoState).1.isWhiteTurn = c9GoState.isWhiteTurn :=
  ⟨(activeTurn_carries_over c9SetupState c9Press).1 rfl rfl,
   (activeTurn_carries_over c9GoState c9Press).2 rfl⟩

/-- Running, White active with 50 ms, Black's clock already at 0. -/
def c10State : ClockState :=
  { currentTimeOption := 1, blackTime := 0, whiteTime := 50, lastUpdateTime := 1000,
    isWhiteTurn := true, isRunning := true, isSetup := false, isGameOver := false,
    hasOneMinuteWarning := true, hasThirtySecondWarning := true, lastFinalSecondBeep := 0 }

def c10Input : Input := ⟨false, false, false, 1050⟩

/-- C10 witness: at the game-end check with both clocks at 0, Black is
announced winner. -/
theorem both_zero_black_wins_witness :
    Event.gameEnded Player.Black ∈ (step c10Input c10State).2
    ∧ winnerOf 0 0 = Player.Black :=
  both_zero_black_wins c10State c10Input rfl rfl (by decide) (by decide)
